import Mathlib

/-!
Verification of the gmodx `lua.h` embedding boundary.

The repository source is the C header `src/gmodx/lua.h`: integer constant
definitions (type tags, status codes, pseudo-index sentinels, registry
sentinels), the `lua_Debug` structure with its `LUA_IDSIZE`-sized inline
`short_src` buffer, the `abs_index` macro, and declarations of the Lua C
API functions. Constants and `abs_index` are embedded directly from the
header; the behaviour of functions that are only declared there (the Lua
runtime itself) is modelled from the specification where a claim needs it.
-/

/-! ## Type tags (src/gmodx/lua.h lines 8-17) -/

def LUA_TNONE : Int := -1

def LUA_TNIL : Int := 0

def LUA_TBOOLEAN : Int := 1

def LUA_TLIGHTUSERDATA : Int := 2

def LUA_TNUMBER : Int := 3

def LUA_TSTRING : Int := 4

def LUA_TTABLE : Int := 5

def LUA_TFUNCTION : Int := 6

def LUA_TUSERDATA : Int := 7

def LUA_TTHREAD : Int := 8

/-! ## Status codes (src/gmodx/lua.h lines 19-27) -/

def LUA_MULTRET : Int := -1

def LUA_OK : Int := 0

def LUA_YIELD : Int := 1

def LUA_ERRRUN : Int := 2

def LUA_ERRSYNTAX : Int := 3

def LUA_ERRMEM : Int := 4

def LUA_ERRERR : Int := 5

def LUA_ERRFILE : Int := LUA_ERRERR + 1

/-! ## Pseudo-index and registry sentinels (src/gmodx/lua.h lines 29-35) -/

def LUA_REGISTRYINDEX : Int := -10000

def LUA_ENVIRONINDEX : Int := -10001

def LUA_GLOBALSINDEX : Int := -10002

/-- Embeds the C macro lua_upvalueindex(i) = LUA_GLOBALSINDEX - i. -/
def lua_upvalueindex (i : Int) : Int := LUA_GLOBALSINDEX - i

def LUA_NOREF : Int := -2

def LUA_REFNIL : Int := -1

/-- Embeds the C macro from src/gmodx/lua.h lines 142-143:
    abs_index(L, i) = (i > 0 or i <= LUA_REGISTRYINDEX) ? i : gettop(L) + i + 1.
    The state L enters only through lua_gettop(L), passed here as top. -/
def abs_index (top i : Int) : Int :=
  if 0 < i ∨ i ≤ LUA_REGISTRYINDEX then i else top + i + 1

/-! ## Claims C1 to C5 -/

/-- Claim C1: the status codes are fixed, pairwise-distinct small integers in
    the listed order: LUA_OK = 0, LUA_YIELD = 1, LUA_ERRRUN = 2,
    LUA_ERRSYNTAX = 3, LUA_ERRMEM = 4, LUA_ERRERR = 5, and
    LUA_ERRFILE = LUA_ERRERR + 1 = 6. -/
theorem status_codes_fixed_c1 :
    LUA_OK = 0 ∧ LUA_YIELD = 1 ∧ LUA_ERRRUN = 2 ∧ LUA_ERRSYNTAX = 3 ∧
    LUA_ERRMEM = 4 ∧ LUA_ERRERR = 5 ∧ LUA_ERRFILE = LUA_ERRERR + 1 ∧
    LUA_ERRFILE = 6 ∧
    List.Pairwise (fun a b => a ≠ b)
      [LUA_OK, LUA_YIELD, LUA_ERRRUN, LUA_ERRSYNTAX, LUA_ERRMEM,
       LUA_ERRERR, LUA_ERRFILE] := by
  decide

/-- Claim C2: the type-tag codes are fixed, pairwise-distinct small integers:
    LUA_TNONE = -1, and nil, boolean, light-userdata, number, string, table,
    function, userdata, thread are the consecutive integers 0 through 8 in
    that exact order. -/
theorem type_tags_fixed_c2 :
    LUA_TNONE = -1 ∧ LUA_TNIL = 0 ∧ LUA_TBOOLEAN = 1 ∧
    LUA_TLIGHTUSERDATA = 2 ∧ LUA_TNUMBER = 3 ∧ LUA_TSTRING = 4 ∧
    LUA_TTABLE = 5 ∧ LUA_TFUNCTION = 6 ∧ LUA_TUSERDATA = 7 ∧
    LUA_TTHREAD = 8 ∧
    List.Pairwise (fun a b => a ≠ b)
      [LUA_TNONE, LUA_TNIL, LUA_TBOOLEAN, LUA_TLIGHTUSERDATA, LUA_TNUMBER,
       LUA_TSTRING, LUA_TTABLE, LUA_TFUNCTION, LUA_TUSERDATA, LUA_TTHREAD] := by
  decide

/-- Claim C3: every pseudo-index is a fixed negative sentinel whose resolution
    does not depend on stack depth: each of LUA_REGISTRYINDEX,
    LUA_ENVIRONINDEX, LUA_GLOBALSINDEX and lua_upvalueindex i for i >= 1 is
    at most LUA_REGISTRYINDEX, and abs_index resolves it to itself for every
    stack top. -/
theorem pseudo_indices_fixed_c3 (p i top : Int)
    (hp : p = LUA_REGISTRYINDEX ∨ p = LUA_ENVIRONINDEX ∨ p = LUA_GLOBALSINDEX)
    (hi : 1 ≤ i) :
    (p ≤ LUA_REGISTRYINDEX ∧ abs_index top p = p) ∧
    (lua_upvalueindex i ≤ LUA_REGISTRYINDEX ∧
      abs_index top (lua_upvalueindex i) = lua_upvalueindex i) := by
  simp only [abs_index, LUA_REGISTRYINDEX, LUA_ENVIRONINDEX, LUA_GLOBALSINDEX,
    lua_upvalueindex] at *
  rcases hp with h | h | h <;> subst h <;>
    refine ⟨⟨by omega, ?_⟩, ⟨by omega, ?_⟩⟩ <;> rw [if_pos (by omega)]

/-- Witness for claim C3 at p = LUA_ENVIRONINDEX, i = 3, top = 7. -/
theorem pseudo_indices_fixed_c3_witness :
    (LUA_ENVIRONINDEX ≤ LUA_REGISTRYINDEX ∧
      abs_index 7 LUA_ENVIRONINDEX = LUA_ENVIRONINDEX) ∧
    (lua_upvalueindex 3 ≤ LUA_REGISTRYINDEX ∧
      abs_index 7 (lua_upvalueindex 3) = lua_upvalueindex 3) :=
  pseudo_indices_fixed_c3 LUA_ENVIRONINDEX 3 7 (Or.inr (Or.inl rfl)) (by decide)

/-- Claim C4: abs_index matches the addressing rule: a positive index resolves
    to itself; a negative stack index i with -top <= i <= -1 and
    i > LUA_REGISTRYINDEX resolves to top + i + 1, which lies in [1, top];
    in particular -1 resolves to the top. -/
theorem abs_index_addressing_c4 (top i : Int) :
    (0 < i → abs_index top i = i) ∧
    ((-top ≤ i ∧ i ≤ -1 ∧ LUA_REGISTRYINDEX < i) →
      abs_index top i = top + i + 1 ∧
      1 ≤ abs_index top i ∧ abs_index top i ≤ top) ∧
    (1 ≤ top → abs_index top (-1) = top) := by
  simp only [abs_index, LUA_REGISTRYINDEX]
  refine ⟨fun h => ?_, fun h => ?_, fun h => ?_⟩
  · rw [if_pos (Or.inl h)]
  · rw [if_neg (by omega)]
    omega
  · rw [if_neg (by omega)]
    omega

/-- Witness for claim C4 at top = 5 with positive index 3 and negative
    index -2, plus the index -1 resolving to the top. -/
theorem abs_index_addressing_c4_witness :
    abs_index 5 3 = 3 ∧
    (abs_index 5 (-2) = 5 + (-2) + 1 ∧ 1 ≤ abs_index 5 (-2) ∧
      abs_index 5 (-2) ≤ 5) ∧
    abs_index 5 (-1) = 5 :=
  ⟨(abs_index_addressing_c4 5 3).1 (by decide),
   (abs_index_addressing_c4 5 (-2)).2.1 (by decide),
   (abs_index_addressing_c4 5 0).2.2 (by decide)⟩

/-- Claim C5: pseudo-indices never alias a real stack slot: any i at most
    LUA_REGISTRYINDEX is resolved by abs_index to itself, never to a position
    in [1, top], for every stack top, even a top exceeding 9999. -/
theorem pseudo_no_alias_c5 (top i : Int) (h : i ≤ LUA_REGISTRYINDEX) :
    abs_index top i = i ∧
    ¬ (1 ≤ abs_index top i ∧ abs_index top i ≤ top) := by
  rw [abs_index, if_pos (Or.inr h)]
  simp only [LUA_REGISTRYINDEX] at h
  exact ⟨rfl, by omega⟩

/-- Witness for claim C5 at top = 20000 (exceeding 9999) and i = -10000. -/
theorem pseudo_no_alias_c5_witness :
    abs_index 20000 (-10000) = -10000 ∧
    ¬ (1 ≤ abs_index 20000 (-10000) ∧ abs_index 20000 (-10000) ≤ 20000) :=
  pseudo_no_alias_c5 20000 (-10000) (by decide)

/-! ## Value and stack model

The data model of section 3 of the spec: a tagged value and the per-thread
value stack. The tags follow the enumeration of the header; payloads of
heap values are identities, since no claim inspects them. -/

/-- Tagged value of the data model (spec section 3); one constructor per
    type tag of the header. -/
inductive Value where
  | nil : Value
  | boolean (b : Bool) : Value
  | lightuserdata (p : Nat) : Value
  | number (n : Int) : Value
  | str (s : String) : Value
  | table (id : Nat) : Value
  | function (id : Nat) : Value
  | userdata (id : Nat) : Value
  | thread (id : Nat) : Value
deriving DecidableEq

/-- The per-thread value stack: an ordered growable sequence of Values,
    bottom first. -/
abbrev Stack := List Value

/-- Modelled from the spec: gettop yields the count of live slots
    (lua_gettop is only declared in the header). -/
def lua_gettop (s : Stack) : Nat := s.length

/-- Modelled from the spec: the push family appends one value at the top
    (lua_pushnil and friends are only declared in the header). -/
def lua_push (s : Stack) (v : Value) : Stack := s ++ [v]

/-- Modelled from the spec: settop truncates (discarding values) or extends
    (filling with nil) to a requested depth (lua_settop is only declared in
    the header). -/
def lua_settop (s : Stack) (n : Nat) : Stack :=
  if n ≤ s.length then s.take n else s ++ List.replicate (n - s.length) Value.nil

/-- Claim C8: push/pop round-trip: with t = lua_gettop before the push,
    pushing any value and then calling the pop-equivalent lua_settop back to
    t restores the original stack, and in particular lua_gettop is t again. -/
theorem push_settop_roundtrip_c8 (s : Stack) (v : Value) :
    lua_settop (lua_push s v) (lua_gettop s) = s ∧
    lua_gettop (lua_settop (lua_push s v) (lua_gettop s)) = lua_gettop s := by
  have h : lua_settop (lua_push s v) (lua_gettop s) = s := by
    simp [lua_settop, lua_push, lua_gettop, List.take_left]
  exact ⟨h, by rw [h]⟩

/-! ## Reference registry model (spec section 4.4) -/

/-- Modelled from the spec: the allocation state of one registry table, a
    recycling free-list plus a supply of fresh handles (the table contents
    do not matter to handle allocation). -/
structure RefState where
  freeList : List Nat
  fresh : Nat
deriving DecidableEq

/-- Modelled from the spec: luaL_ref (only declared in the header) consumes
    the value at the top of the stack; for nil it returns the LUA_REFNIL
    sentinel with no allocation, otherwise it returns a recycled handle from
    the free-list or a freshly allocated one, always a non-negative
    integer. -/
def luaL_ref (st : RefState) (v : Value) : RefState × Int :=
  if v = Value.nil then (st, LUA_REFNIL)
  else
    match st.freeList with
    | h :: rest => ({ st with freeList := rest }, Int.ofNat h)
    | [] => ({ st with fresh := st.fresh + 1 }, Int.ofNat st.fresh)

/-- Claim C6: LUA_REFNIL and LUA_NOREF are distinct negative integers, and
    every handle luaL_ref issues for a live (non-nil) entry is a
    non-negative integer, so no issued handle ever equals either
    sentinel. -/
theorem ref_sentinels_distinct_c6 :
    LUA_REFNIL = -1 ∧ LUA_NOREF = -2 ∧ LUA_REFNIL ≠ LUA_NOREF ∧
    LUA_REFNIL < 0 ∧ LUA_NOREF < 0 ∧
    ∀ (st : RefState) (v : Value), v ≠ Value.nil →
      0 ≤ (luaL_ref st v).2 ∧ (luaL_ref st v).2 ≠ LUA_REFNIL ∧
      (luaL_ref st v).2 ≠ LUA_NOREF := by
  refine ⟨rfl, rfl, by decide, by decide, by decide, fun st v hv => ?_⟩
  have h0 : 0 ≤ (luaL_ref st v).2 := by
    unfold luaL_ref
    rw [if_neg hv]
    rcases hfl : st.freeList with _ | ⟨a, rest⟩ <;> exact Int.ofNat_nonneg _
  refine ⟨h0, fun he => ?_, fun he => ?_⟩
  · rw [he] at h0
    exact absurd h0 (by decide)
  · rw [he] at h0
    exact absurd h0 (by decide)

/-- Witness for claim C6: luaL_ref on a boolean with an empty free-list. -/
theorem ref_sentinels_distinct_c6_witness :
    0 ≤ (luaL_ref ⟨[], 0⟩ (Value.boolean true)).2 ∧
    (luaL_ref ⟨[], 0⟩ (Value.boolean true)).2 ≠ LUA_REFNIL ∧
    (luaL_ref ⟨[], 0⟩ (Value.boolean true)).2 ≠ LUA_NOREF :=
  ref_sentinels_distinct_c6.2.2.2.2.2 ⟨[], 0⟩ (Value.boolean true) (by decide)

/-! ## Protected call model (spec section 4.3) -/

/-- Modelled from the spec: the fault taxonomy a protected call can report
    (section 7): runtime fault, out-of-memory, load-time syntax error, or a
    fault raised inside the error handler itself. -/
inductive FaultKind where
  | runtimeFault : FaultKind
  | outOfMemory : FaultKind
  | syntaxError : FaultKind
  | errorInErrorHandler : FaultKind
deriving DecidableEq

/-- Status code reported for each fault kind, per the header constants. -/
def FaultKind.status : FaultKind → Int
  | .runtimeFault => LUA_ERRRUN
  | .outOfMemory => LUA_ERRMEM
  | .syntaxError => LUA_ERRSYNTAX
  | .errorInErrorHandler => LUA_ERRERR

/-- Outcome of running a callable under protection: normal completion with
    a list of results, or a fault carrying its kind and one error value. -/
inductive CallOutcome where
  | ret (results : List Value) : CallOutcome
  | fault (kind : FaultKind) (err : Value) : CallOutcome
deriving DecidableEq

/-- Modelled from the spec: on normal completion up to nresults results are
    kept (all of them when nresults is LUA_MULTRET = -1), padding with nil
    when fewer were produced. -/
def adjustResults (nresults : Int) (rs : List Value) : List Value :=
  if nresults < 0 then rs
  else rs.take nresults.toNat ++ List.replicate (nresults.toNat - rs.length) Value.nil

/-- Modelled from the spec: when errfunc names a handler, the handler is
    applied to the raw fault value and its return becomes the propagated
    error; with no handler the raw fault value propagates unchanged. -/
def applyErrfunc (errh : Option (Value → Value)) (e : Value) : Value :=
  match errh with
  | none => e
  | some h => h e

/-- Modelled from the spec: lua_error raises its argument as the active
    fault, reported by the enclosing protected call as a runtime fault; as
    a callable behaviour it never returns results. -/
def errorRaise (x : Value) : Value → List Value → CallOutcome :=
  fun _ _ => CallOutcome.fault FaultKind.runtimeFault x

/-- Modelled from the spec: lua_pcall (only declared in the header). The
    callable sits nargs + 1 slots below the top with the nargs arguments
    above it; run gives the behaviour of invoking that callable on those
    arguments. On normal completion the callable and arguments are replaced
    by the adjusted results and LUA_OK is returned; on fault the stack is
    unwound to the depth below the callable, the single propagated error
    value (through the handler when one is given) is left on top, and the
    status of the fault kind is returned. -/
def lua_pcall (s : Stack) (nargs : Nat) (nresults : Int)
    (errh : Option (Value → Value)) (run : Value → List Value → CallOutcome) :
    Stack × Int :=
  let base := s.length - (nargs + 1)
  let f := (s.drop base).headD Value.nil
  let args := s.drop (base + 1)
  match run f args with
  | .ret rs => (s.take base ++ adjustResults nresults rs, LUA_OK)
  | .fault k e => (s.take base ++ [applyErrfunc errh e], k.status)

/-- Claim C7: for every protected call whose callee faults (including an
    explicit error raise), the stack is unwound back to the pre-call depth
    with exactly one error value on top, the returned status is among
    LUA_ERRRUN, LUA_ERRMEM, LUA_ERRSYNTAX, LUA_ERRERR, and in the
    explicit-error case the value on top is the raised value X and the
    status is LUA_ERRRUN. -/
theorem pcall_fault_unwind_c7 (s : Stack) (nargs : Nat) (nresults : Int)
    (errh : Option (Value → Value)) (run : Value → List Value → CallOutcome)
    (k : FaultKind) (e : Value)
    (hlen : nargs + 1 ≤ s.length)
    (hrun : run ((s.drop (s.length - (nargs + 1))).headD Value.nil)
        (s.drop (s.length - (nargs + 1) + 1)) = CallOutcome.fault k e) :
    (lua_pcall s nargs nresults errh run).1 =
      s.take (s.length - (nargs + 1)) ++ [applyErrfunc errh e] ∧
    (lua_pcall s nargs nresults errh run).1.length =
      s.length - (nargs + 1) + 1 ∧
    ((lua_pcall s nargs nresults errh run).2 = LUA_ERRRUN ∨
     (lua_pcall s nargs nresults errh run).2 = LUA_ERRMEM ∨
     (lua_pcall s nargs nresults errh run).2 = LUA_ERRSYNTAX ∨
     (lua_pcall s nargs nresults errh run).2 = LUA_ERRERR) ∧
    (lua_pcall s nargs nresults none (errorRaise e)).1 =
      s.take (s.length - (nargs + 1)) ++ [e] ∧
    (lua_pcall s nargs nresults none (errorRaise e)).2 = LUA_ERRRUN := by
  have hp : lua_pcall s nargs nresults errh run =
      (s.take (s.length - (nargs + 1)) ++ [applyErrfunc errh e], k.status) := by
    simp only [lua_pcall]
    rw [hrun]
  refine ⟨by rw [hp], ?_, ?_, rfl, rfl⟩
  · rw [hp]
    simp only [List.length_append, List.length_take, List.length_singleton]
    omega
  · rw [hp]
    cases k
    · exact Or.inl rfl
    · exact Or.inr (Or.inl rfl)
    · exact Or.inr (Or.inr (Or.inl rfl))
    · exact Or.inr (Or.inr (Or.inr rfl))

/-- Witness for claim C7: a two-slot stack holding a callable and one
    argument, where the callable raises the string value boom. -/
theorem pcall_fault_unwind_c7_witness :
    (lua_pcall [Value.function 0, Value.number 7] 1 0 none
        (errorRaise (Value.str "boom"))).1 = [Value.str "boom"] ∧
    (lua_pcall [Value.function 0, Value.number 7] 1 0 none
        (errorRaise (Value.str "boom"))).2 = LUA_ERRRUN :=
  ⟨(pcall_fault_unwind_c7 [Value.function 0, Value.number 7] 1 0 none
      (errorRaise (Value.str "boom")) FaultKind.runtimeFault (Value.str "boom")
      (by decide) rfl).2.2.2.1,
   (pcall_fault_unwind_c7 [Value.function 0, Value.number 7] 1 0 none
      (errorRaise (Value.str "boom")) FaultKind.runtimeFault (Value.str "boom")
      (by decide) rfl).2.2.2.2⟩

/-! ## Debug introspection model (src/gmodx/lua.h lines 50-67, spec 4.6) -/

/-- Embeds the header definition: LUA_IDSIZE is 128 in this header (the
    stock Lua 5.1 value is 60; the comment in the header records that the
    game runtime changes it to 128). -/
def LUA_IDSIZE : Nat := 128

/-- The inline short-source buffer of lua_Debug: a byte array of fixed
    capacity LUA_IDSIZE, embedding the C field char short_src[LUA_IDSIZE]. -/
def ShortSrcBuf := { l : List Nat // l.length = LUA_IDSIZE }

/-- An all-zero short-source buffer. -/
def zeroShortSrc : ShortSrcBuf := ⟨List.replicate LUA_IDSIZE 0, by simp⟩

/-- Modelled from the spec: the body of lua_getinfo is not in the header;
    per the declared field char short_src[LUA_IDSIZE], the short-source text
    it writes is stored as a NUL-terminated C string inside the fixed
    buffer, so it is truncated to at most LUA_IDSIZE - 1 bytes before the
    terminator, and the rest of the buffer is zero. -/
def storeShortSrc (src : List Nat) : ShortSrcBuf :=
  ⟨(src.takeWhile (fun x => x != 0)).take (LUA_IDSIZE - 1) ++
      List.replicate
        (LUA_IDSIZE - ((src.takeWhile (fun x => x != 0)).take (LUA_IDSIZE - 1)).length) 0,
   by simp [LUA_IDSIZE]⟩

/-- The buffer holds a NUL terminator somewhere. -/
def nulTerminated (b : ShortSrcBuf) : Prop := 0 ∈ b.val

/-- Length of the C string held by the buffer: the bytes before the first
    NUL. -/
def cStrLen (b : ShortSrcBuf) : Nat :=
  (b.val.takeWhile (fun x => x != 0)).length

/-- Embeds the C structure lua_Debug from the header, one field per field;
    pointer-valued fields are optional strings (NULL is none). -/
structure lua_Debug where
  event : Int
  name : Option String
  namewhat : Option String
  what : Option String
  source : Option String
  currentline : Int
  nups : Int
  linedefined : Int
  lastlinedefined : Int
  short_src : ShortSrcBuf
  i_ci : Int

/-- The documented default contents of a lua_Debug record before any field
    is populated: null pointers, line and count defaults, a zeroed
    short-source buffer. -/
def default_lua_Debug : lua_Debug :=
  { event := 0, name := none, namewhat := none, what := none, source := none,
    currentline := -1, nups := 0, linedefined := -1, lastlinedefined := -1,
    short_src := zeroShortSrc, i_ci := 0 }

/-- The true data of one call-stack level, from which lua_getinfo draws the
    fields it is asked for. -/
structure FrameData where
  name : Option String
  namewhat : Option String
  what : Option String
  source : Option String
  currentline : Int
  nups : Int
  linedefined : Int
  lastlinedefined : Int
  srcBytes : List Nat

/-- Modelled from the spec: one step of processing the field-selector
    string of lua_getinfo: the character n populates name and namewhat, S
    populates what, source, linedefined, lastlinedefined and short_src, l
    populates currentline, u populates nups; any other character populates
    nothing. -/
def applySelector (fr : FrameData) (ar : lua_Debug) (c : Char) : lua_Debug :=
  if c = 'n' then { ar with name := fr.name, namewhat := fr.namewhat }
  else if c = 'S' then
    { ar with
      what := fr.what
      source := fr.source
      linedefined := fr.linedefined
      lastlinedefined := fr.lastlinedefined
      short_src := storeShortSrc fr.srcBytes }
  else if c = 'l' then { ar with currentline := fr.currentline }
  else if c = 'u' then { ar with nups := fr.nups }
  else ar

/-- Modelled from the spec: lua_getinfo (only declared in the header)
    processes its field-selector string character by character, starting
    from a record holding the documented defaults, and populates exactly
    the fields each selector character requests. -/
def lua_getinfo (sel : String) (fr : FrameData) : lua_Debug :=
  sel.toList.foldl (applySelector fr) default_lua_Debug

/-- Characterization of one selector step, field by field. -/
lemma applySelector_fields (fr : FrameData) (ar : lua_Debug) (c : Char) :
    (applySelector fr ar c).name = (if c = 'n' then fr.name else ar.name) ∧
    (applySelector fr ar c).namewhat =
      (if c = 'n' then fr.namewhat else ar.namewhat) ∧
    (applySelector fr ar c).what = (if c = 'S' then fr.what else ar.what) ∧
    (applySelector fr ar c).source =
      (if c = 'S' then fr.source else ar.source) ∧
    (applySelector fr ar c).linedefined =
      (if c = 'S' then fr.linedefined else ar.linedefined) ∧
    (applySelector fr ar c).lastlinedefined =
      (if c = 'S' then fr.lastlinedefined else ar.lastlinedefined) ∧
    (applySelector fr ar c).short_src =
      (if c = 'S' then storeShortSrc fr.srcBytes else ar.short_src) ∧
    (applySelector fr ar c).currentline =
      (if c = 'l' then fr.currentline else ar.currentline) ∧
    (applySelector fr ar c).nups = (if c = 'u' then fr.nups else ar.nups) := by
  by_cases h1 : c = 'n'
  · subst h1
    simp [applySelector]
  by_cases h2 : c = 'S'
  · subst h2
    simp [applySelector]
  by_cases h3 : c = 'l'
  · subst h3
    simp [applySelector]
  by_cases h4 : c = 'u'
  · subst h4
    simp [applySelector]
  simp [applySelector, h1, h2, h3, h4]

/-- Folding an if through one cons of a selector-character list. -/
lemma if_mem_cons_select {α : Type} (x c : Char) (cs : List Char) (a b : α) :
    (if x ∈ cs then a else if c = x then a else b) =
    (if x ∈ c :: cs then a else b) := by
  by_cases hm : x ∈ cs
  · rw [if_pos hm, if_pos (List.mem_cons_of_mem _ hm)]
  · by_cases hc : c = x
    · subst hc
      rw [if_neg hm, if_pos rfl, if_pos (List.mem_cons_self _ _)]
    · have hx : ¬ x ∈ c :: cs := by
        intro h
        rcases List.mem_cons.mp h with h | h
        · exact hc h.symm
        · exact hm h
      rw [if_neg hm, if_neg hc, if_neg hx]

/-- Characterization of the whole selector fold: each field of the result
    is the frame datum when its selector character occurs anywhere in the
    list, and the starting value otherwise. -/
lemma foldl_applySelector_fields (fr : FrameData) (l : List Char)
    (acc : lua_Debug) :
    ((l.foldl (applySelector fr) acc).name =
      (if 'n' ∈ l then fr.name else acc.name)) ∧
    ((l.foldl (applySelector fr) acc).namewhat =
      (if 'n' ∈ l then fr.namewhat else acc.namewhat)) ∧
    ((l.foldl (applySelector fr) acc).what =
      (if 'S' ∈ l then fr.what else acc.what)) ∧
    ((l.foldl (applySelector fr) acc).source =
      (if 'S' ∈ l then fr.source else acc.source)) ∧
    ((l.foldl (applySelector fr) acc).linedefined =
      (if 'S' ∈ l then fr.linedefined else acc.linedefined)) ∧
    ((l.foldl (applySelector fr) acc).lastlinedefined =
      (if 'S' ∈ l then fr.lastlinedefined else acc.lastlinedefined)) ∧
    ((l.foldl (applySelector fr) acc).short_src =
      (if 'S' ∈ l then storeShortSrc fr.srcBytes else acc.short_src)) ∧
    ((l.foldl (applySelector fr) acc).currentline =
      (if 'l' ∈ l then fr.currentline else acc.currentline)) ∧
    ((l.foldl (applySelector fr) acc).nups =
      (if 'u' ∈ l then fr.nups else acc.nups)) := by
  induction l generalizing acc with
  | nil => simp
  | cons c cs ih =>
    simp only [List.foldl_cons]
    obtain ⟨e1, e2, e3, e4, e5, e6, e7, e8, e9⟩ := ih (applySelector fr acc c)
    obtain ⟨a1, a2, a3, a4, a5, a6, a7, a8, a9⟩ := applySelector_fields fr acc c
    refine ⟨?_, ?_, ?_, ?_, ?_, ?_, ?_, ?_, ?_⟩
    · rw [e1, a1]
      exact if_mem_cons_select 'n' c cs fr.name acc.name
    · rw [e2, a2]
      exact if_mem_cons_select 'n' c cs fr.namewhat acc.namewhat
    · rw [e3, a3]
      exact if_mem_cons_select 'S' c cs fr.what acc.what
    · rw [e4, a4]
      exact if_mem_cons_select 'S' c cs fr.source acc.source
    · rw [e5, a5]
      exact if_mem_cons_select 'S' c cs fr.linedefined acc.linedefined
    · rw [e6, a6]
      exact if_mem_cons_select 'S' c cs fr.lastlinedefined acc.lastlinedefined
    · rw [e7, a7]
      exact if_mem_cons_select 'S' c cs (storeShortSrc fr.srcBytes) acc.short_src
    · rw [e8, a8]
      exact if_mem_cons_select 'l' c cs fr.currentline acc.currentline
    · rw [e9, a9]
      exact if_mem_cons_select 'u' c cs fr.nups acc.nups

/-- Claim C9: for every frame and every field-selector string, lua_getinfo
    populates exactly the fields the selector characters request (n gives
    name and namewhat, S gives what, source, linedefined, lastlinedefined
    and short_src, l gives currentline, u gives nups), and every
    non-selected field keeps its documented default value. -/
theorem getinfo_selective_c9 (sel : String) (fr : FrameData) :
    ((lua_getinfo sel fr).name =
      (if 'n' ∈ sel.toList then fr.name else default_lua_Debug.name)) ∧
    ((lua_getinfo sel fr).namewhat =
      (if 'n' ∈ sel.toList then fr.namewhat else default_lua_Debug.namewhat)) ∧
    ((lua_getinfo sel fr).what =
      (if 'S' ∈ sel.toList then fr.what else default_lua_Debug.what)) ∧
    ((lua_getinfo sel fr).source =
      (if 'S' ∈ sel.toList then fr.source else default_lua_Debug.source)) ∧
    ((lua_getinfo sel fr).linedefined =
      (if 'S' ∈ sel.toList then fr.linedefined
       else default_lua_Debug.linedefined)) ∧
    ((lua_getinfo sel fr).lastlinedefined =
      (if 'S' ∈ sel.toList then fr.lastlinedefined
       else default_lua_Debug.lastlinedefined)) ∧
    ((lua_getinfo sel fr).short_src =
      (if 'S' ∈ sel.toList then storeShortSrc fr.srcBytes
       else default_lua_Debug.short_src)) ∧
    ((lua_getinfo sel fr).currentline =
      (if 'l' ∈ sel.toList then fr.currentline
       else default_lua_Debug.currentline)) ∧
    ((lua_getinfo sel fr).nups =
      (if 'u' ∈ sel.toList then fr.nups else default_lua_Debug.nups)) :=
  foldl_applySelector_fields fr sel.toList default_lua_Debug

/-- A run of bytes with no NUL followed by a nonempty zero block: the C
    string held is exactly the run before the zeros. -/
lemma takeWhile_append_replicate_zero (s : List Nat) (k : Nat)
    (hs : ∀ x ∈ s, x ≠ 0) (hk : k ≠ 0) :
    ((s ++ List.replicate k 0).takeWhile (fun x => x != 0)) = s := by
  induction s with
  | nil =>
    cases k with
    | zero => exact absurd rfl hk
    | succ m =>
      simp [List.replicate_succ, List.takeWhile_cons]
  | cons a as ih =>
    have ha : a ≠ 0 := hs a (List.mem_cons_self _ _)
    have ih2 := ih (fun x hx => hs x (List.mem_cons_of_mem _ hx))
    simp only [List.cons_append, List.takeWhile_cons, ih2]
    simp [ha]

/-- The kept portion of a stored short source has no NUL bytes. -/
lemma storeShortSrc_kept_no_zero (src : List Nat) :
    ∀ x ∈ (src.takeWhile (fun x => x != 0)).take (LUA_IDSIZE - 1), x ≠ 0 := by
  intro x hx
  have hx2 : x ∈ src.takeWhile (fun x => x != 0) :=
    List.take_subset _ _ hx
  have := List.mem_takeWhile_imp hx2
  simpa using this

/-- The kept portion of a stored short source has at most LUA_IDSIZE - 1
    bytes. -/
lemma storeShortSrc_kept_short (src : List Nat) :
    ((src.takeWhile (fun x => x != 0)).take (LUA_IDSIZE - 1)).length ≤
      LUA_IDSIZE - 1 := by
  simp [LUA_IDSIZE]

/-- Claim C10: LUA_IDSIZE is 128 (not the stock 60); every lua_Debug record
    carries short_src as an inline buffer of exactly LUA_IDSIZE bytes; and
    the short-source string stored there is NUL-terminated with at most
    LUA_IDSIZE - 1 = 127 characters before the terminator. -/
theorem short_src_capacity_c10 :
    LUA_IDSIZE = 128 ∧ LUA_IDSIZE ≠ 60 ∧ LUA_IDSIZE - 1 = 127 ∧
    (∀ d : lua_Debug, d.short_src.val.length = LUA_IDSIZE) ∧
    (∀ src : List Nat,
      nulTerminated (storeShortSrc src) ∧
      cStrLen (storeShortSrc src) ≤ LUA_IDSIZE - 1) := by
  refine ⟨rfl, by decide, rfl, fun d => d.short_src.property, fun src => ?_⟩
  have hlen := storeShortSrc_kept_short src
  have hk : LUA_IDSIZE -
      ((src.takeWhile (fun x => x != 0)).take (LUA_IDSIZE - 1)).length ≠ 0 := by
    simp only [LUA_IDSIZE] at *
    omega
  constructor
  · show 0 ∈ (storeShortSrc src).val
    refine List.mem_append.mpr (Or.inr ?_)
    exact List.mem_replicate.mpr ⟨hk, rfl⟩
  · show ((storeShortSrc src).val.takeWhile (fun x => x != 0)).length ≤
      LUA_IDSIZE - 1
    have heq : (storeShortSrc src).val.takeWhile (fun x => x != 0) =
        (src.takeWhile (fun x => x != 0)).take (LUA_IDSIZE - 1) :=
      takeWhile_append_replicate_zero _ _ (storeShortSrc_kept_no_zero src) hk
    rw [heq]
    exact hlen
